import Mathlib

/-!
Shallow embedding of the `ghostinthemini` scheduling assistant
(`src/ghostinthemini/scheduler.py` and `src/ghostinthemini/slack_bot.py`)
and proofs of the frozen claims about it.

Python values, dicts and exceptions are modelled explicitly; the external
collaborators (Google Calendar, the Ollama chain, stdout) are parameters of
the pipeline function, and stateful behaviour (which external calls were
made, what was printed) is returned as part of an explicit run result.
-/

namespace GhostInTheMini

/-- A single-quote character as a string, used when building Python-style
`repr` output and error messages. -/
def sq : String := String.singleton (Char.ofNat 39)

/-- Model of the Python values that can appear in a parsed JSON proposal
dict: strings, integers, booleans and `None`. -/
inductive PyVal where
  | str (s : String)
  | int (n : Int)
  | bool (b : Bool)
  | pynone
deriving DecidableEq, Repr

/-- Python `repr` of a value (strings are shown in single quotes; the
model does not re-escape quote characters inside the string). -/
def pyRepr : PyVal → String
  | .str s => sq ++ s ++ sq
  | .int n => toString n
  | .bool true => "True"
  | .bool false => "False"
  | .pynone => "None"

/-- Python `str` of a value, as applied by f-string interpolation. -/
def pyStr : PyVal → String
  | .str s => s
  | v => pyRepr v

/-- Model of a Python dict with string keys: an insertion-ordered
association list (keys are unique in a real dict; lookups take the first
occurrence). -/
abbrev Pdict : Type := List (String × PyVal)

/-- `k in d` on a Python dict. -/
def hasKey (d : Pdict) (k : String) : Bool := d.any (fun kv => kv.1 == k)

/-- `d.get(k)` on a Python dict: `None` default. -/
def lookup? (d : Pdict) (k : String) : Option PyVal :=
  (d.find? (fun kv => kv.1 == k)).map Prod.snd

/-- `d[k]` on a Python dict.  In the embedded code this is only evaluated
on keys known to be present (`KeyError` is unreachable on the embedded
paths), so a total function with a `None` default is faithful. -/
def dget (d : Pdict) (k : String) : PyVal := (lookup? d k).getD .pynone

/-- `d.get(k, default)` on a Python dict. -/
def dgetD (d : Pdict) (k : String) (dflt : PyVal) : PyVal :=
  (lookup? d k).getD dflt

/-- Python `repr`/`str` of a dict, as interpolated by an f-string. -/
def reprPdict (d : Pdict) : String :=
  "\x7b" ++
    String.intercalate ", "
      (d.map (fun kv => sq ++ kv.1 ++ sq ++ ": " ++ pyRepr kv.2)) ++
    "\x7d"

/-- Model of the Python exceptions observable in this code base.
`schedulingError` is `scheduler.SchedulingError` raised bare, and
`schedulingErrorFrom` is `raise SchedulingError(msg) from cause` (the
`__cause__` chain). -/
inductive PyExc where
  | schedulingError (msg : String)
  | schedulingErrorFrom (msg : String) (cause : PyExc)
  | valueError (msg : String)
  | typeError (msg : String)
  | connectionError (msg : String)
  | otherExc (msg : String)
deriving DecidableEq, Repr

/-- Whether an exception is (an instance of) `SchedulingError`. -/
def PyExc.isSched : PyExc → Bool
  | .schedulingError _ => true
  | .schedulingErrorFrom _ _ => true
  | _ => false

/-! ### `datetime.datetime.fromisoformat`

The validator calls the standard library function `datetime.fromisoformat`.  We
embed it for the grammar subset `YYYY-MM-DD[(T| )HH[:MM[:SS]][±HH:MM|Z]]`
with full range checks (real month lengths, leap years); fractional
seconds and the more exotic forms accepted by CPython 3.11+ are outside
the subset.  A parsed value is reduced to days-since-civil-epoch, seconds
within the day, and an optional UTC offset in minutes, which is exactly
the information consumed by the comparison in the validator. -/

/-- Numeric value of a decimal digit character. -/
def digitVal (c : Char) : Option Nat :=
  if c.isDigit then some (c.toNat - 48) else none

/-- Read exactly two decimal digits. -/
def read2 : List Char → Option (Nat × List Char)
  | a :: b :: rest => do
      let x ← digitVal a
      let y ← digitVal b
      pure (10 * x + y, rest)
  | _ => none

/-- Read exactly four decimal digits. -/
def read4 : List Char → Option (Nat × List Char)
  | a :: b :: c :: d :: rest => do
      let x ← digitVal a
      let y ← digitVal b
      let z ← digitVal c
      let w ← digitVal d
      pure (1000 * x + 100 * y + 10 * z + w, rest)
  | _ => none

/-- Consume one expected character. -/
def expectChar (c : Char) : List Char → Option (List Char)
  | x :: rest => if x == c then some rest else none
  | [] => none

/-- Gregorian leap-year rule. -/
def isLeap (y : Nat) : Bool :=
  y % 4 == 0 && (y % 100 != 0 || y % 400 == 0)

/-- Number of days in a month. -/
def daysInMonth (y m : Nat) : Nat :=
  if m == 2 then (if isLeap y then 29 else 28)
  else if m == 4 || m == 6 || m == 9 || m == 11 then 30
  else 31

/-- Days from civil date to the 1970-01-01 epoch (the civil-from-days algorithm of Hinnant);
a strictly monotone linearisation of valid Gregorian dates. -/
def daysFromCivil (y m d : Nat) : Int :=
  let yAdj : Int := if m ≤ 2 then (y : Int) - 1 else (y : Int)
  let era : Int := yAdj / 400
  let yoe : Int := yAdj - era * 400
  let mp : Int := if m > 2 then (m : Int) - 3 else (m : Int) + 9
  let doy : Int := (153 * mp + 2) / 5 + (d : Int) - 1
  let doe : Int := yoe * 365 + yoe / 4 - yoe / 100 + doy
  era * 146097 + doe - 719468

/-- Result of `datetime.fromisoformat`: a point on the civil timeline,
naive (`tz = none`) or aware (`tz = some` UTC offset in minutes). -/
structure PyDatetime where
  days : Int
  sec : Nat
  tz : Option Int
deriving DecidableEq, Repr

/-- Parse `YYYY-MM-DD` with range checks. -/
def parseDate (cs : List Char) : Option ((Nat × Nat × Nat) × List Char) := do
  let (y, r1) ← read4 cs
  let r2 ← expectChar '-' r1
  let (m, r3) ← read2 r2
  let r4 ← expectChar '-' r3
  let (d, r5) ← read2 r4
  if 1 ≤ y && 1 ≤ m && m ≤ 12 && 1 ≤ d && d ≤ daysInMonth y m then
    pure ((y, m, d), r5)
  else none

/-- Parse `HH[:MM[:SS]]` into seconds within the day. -/
def parseTimePart (cs : List Char) : Option (Nat × List Char) := do
  let (hh, r1) ← read2 cs
  if hh ≥ 24 then none else
  match r1 with
  | ':' :: r2 => do
      let (mm, r3) ← read2 r2
      if mm ≥ 60 then none else
      match r3 with
      | ':' :: r4 => do
          let (ss, r5) ← read2 r4
          if ss ≥ 60 then none else pure (hh * 3600 + mm * 60 + ss, r5)
      | _ => pure (hh * 3600 + mm * 60, r3)
  | _ => pure (hh * 3600, r1)

/-- Parse the optional trailing UTC offset (`±HH:MM` or `Z`); the rest of
the string must be exhausted. -/
def parseOffset (cs : List Char) : Option (Option Int) :=
  match cs with
  | [] => some none
  | ['Z'] => some (some 0)
  | c :: rest =>
    if c == '+' || c == '-' then
      match read2 rest with
      | some (oh, r1) =>
        match expectChar ':' r1 with
        | some r2 =>
          match read2 r2 with
          | some (om, r3) =>
            if r3.isEmpty && oh ≤ 23 && om ≤ 59 then
              some (some (if c == '+' then ((oh * 60 + om : Nat) : Int)
                          else -((oh * 60 + om : Nat) : Int)))
            else none
          | none => none
        | none => none
      | none => none
    else none

/-- `datetime.fromisoformat` on a string, for the grammar subset above. -/
def parseIso (s : String) : Option PyDatetime := do
  let ((y, m, d), r) ← parseDate s.data
  match r with
  | [] => pure ⟨daysFromCivil y m d, 0, none⟩
  | c :: rest =>
    if c == 'T' || c == ' ' then do
      let (sec, r2) ← parseTimePart rest
      let tz ← parseOffset r2
      pure ⟨daysFromCivil y m d, sec, tz⟩
    else none

/-- `datetime.fromisoformat(value)` applied to an arbitrary Python value:
a non-string argument raises `TypeError`, an unparseable string raises
`ValueError`. -/
def fromisoformatV : PyVal → Except PyExc PyDatetime
  | .str s =>
    match parseIso s with
    | some dt => .ok dt
    | none => .error (.valueError ("Invalid isoformat string: " ++ pyRepr (.str s)))
  | _ => .error (.typeError "fromisoformat: argument must be str")

/-- UTC-normalised sort key of a datetime in seconds (offset subtracted;
for naive values the offset is absent and the key is the wall-clock key). -/
def dtKey (dt : PyDatetime) : Int :=
  dt.days * 86400 + (dt.sec : Int) - 60 * (dt.tz.getD 0)

/-- Python `a <= b` on two datetimes: comparing an offset-naive with an
offset-aware value raises `TypeError`; otherwise both are compared on the
common timeline. -/
def pyLeDatetime (a b : PyDatetime) : Except PyExc Bool :=
  if a.tz.isSome != b.tz.isSome then
    .error (.typeError ("can" ++ sq ++ "t compare offset-naive and offset-aware datetimes"))
  else .ok (dtKey a ≤ dtKey b)

/-! ### `validate_llm_result` (scheduler.py lines 197-224) -/

/-- `REQUIRED_KEYS = {"summary", "start", "end"}`, listed here in the
alphabetical order that `sorted` produces. -/
def REQUIRED_KEYS : List String := ["end", "start", "summary"]

/-- `sorted(REQUIRED_KEYS - result.keys())`: the required keys absent from
the dict, alphabetically sorted (filtering the sorted universe). -/
def missingOf (result : Pdict) : List String :=
  REQUIRED_KEYS.filter (fun k => !(hasKey result k))

/-- The message of the time-ordering failure (scheduler.py lines 221-224). -/
def endNotAfterMsg (sstr estr : String) : String :=
  "LLM returned an end time (" ++ estr ++ ") that is not after the start time (" ++
    sstr ++ ")"

/-- Embedding of `validate_llm_result`.  The source re-parses `start` and
`end` after the per-key loop (lines 218-219); `fromisoformat` is a pure
function, so the values bound in the first parses are reused.  The final
`end_dt <= start_dt` comparison (line 220) sits outside any `try` block,
so an exception it raises propagates out of the function. -/
def validate_llm_result (result : Pdict) : Except PyExc Unit :=
  if missingOf result ≠ [] then
    .error (.schedulingError
      ("LLM response missing required key(s): " ++
        String.intercalate ", " (missingOf result) ++ ". Got: " ++ reprPdict result))
  else
    match fromisoformatV (dget result "start") with
    | .error exc =>
      .error (.schedulingErrorFrom
        ("LLM returned an invalid datetime for " ++ sq ++ "start" ++ sq ++
          ": " ++ pyRepr (dget result "start")) exc)
    | .ok start_dt =>
      match fromisoformatV (dget result "end") with
      | .error exc =>
        .error (.schedulingErrorFrom
          ("LLM returned an invalid datetime for " ++ sq ++ "end" ++ sq ++
            ": " ++ pyRepr (dget result "end")) exc)
      | .ok end_dt =>
        match pyLeDatetime end_dt start_dt with
        | .error e => .error e
        | .ok true =>
          .error (.schedulingError
            (endNotAfterMsg (pyStr (dget result "start")) (pyStr (dget result "end"))))
        | .ok false => .ok ()

/-! ### `schedule_task` (scheduler.py lines 231-352)

The external collaborators — `get_schedule` (Google Calendar listing),
`chain.invoke` (the prompt|llm|parser chain), `create_event` (Google
Calendar insertion) and the wall clock — are fields of an `Env`.  A run
returns the outcome together with the list of `create_event` calls made
and the lines printed to stdout. -/

/-- One event dict as returned by `get_schedule`: string fields
`summary`, `start`, `end`, `description`. -/
structure CalItem where
  summary : String
  start : String
  «end» : String
  description : String
deriving DecidableEq, Repr

/-- `config.MODEL`. -/
def MODEL : String := "qwen3-coder:30b-a3b-q4_K_M"

/-- The schedule text interpolated into the prompt (scheduler.py lines
299-306): one `"  - <summary>: <start> → <end>"` line per event joined by
newlines when the schedule is non-empty, else a literal placeholder. -/
def scheduleText (current_schedule : List CalItem) : String :=
  match current_schedule with
  | [] => "  (No events scheduled)"
  | _ =>
    String.intercalate "\n"
      (current_schedule.map
        (fun e => "  - " ++ e.summary ++ ": " ++ e.start ++ " → " ++ e.«end»))

/-- The variable dict passed to `chain.invoke` (scheduler.py lines
310-318). -/
structure InvokeInput where
  current_time : String
  days_ahead : Nat
  schedule : String
  duration : Nat
  task : String
deriving DecidableEq, Repr

/-- The keyword arguments of a `create_event` call (scheduler.py lines
330-338). -/
structure CreateArgs where
  summary : PyVal
  start : PyVal
  «end» : PyVal
  description : String
deriving DecidableEq, Repr

/-- The external collaborators of one `schedule_task` run. -/
structure Env where
  get_schedule : Except PyExc (List CalItem)
  nowStr : String
  chain_invoke : InvokeInput → Except PyExc Pdict
  create_event : CreateArgs → Except PyExc Pdict

deriving instance DecidableEq for Except

/-- Observable result of a `schedule_task` run: the returned value or the
escaping exception, the `create_event` calls made, and the stdout lines. -/
structure RunResult where
  outcome : Except PyExc Pdict
  createCalls : List CreateArgs
  printed : List String
deriving DecidableEq, Repr

/-- Embedding of `schedule_task`. -/
def schedule_task (env : Env) (task_description : String)
    (duration_minutes : Nat := 60) (days_ahead : Nat := 7) : RunResult :=
  match env.get_schedule with
  | .error exc =>
    ⟨.error (.schedulingErrorFrom
        "Failed to fetch your calendar. Is your Google token valid?" exc),
      [], []⟩
  | .ok current_schedule =>
    let schedule_text := scheduleText current_schedule
    match env.chain_invoke
        ⟨env.nowStr, days_ahead, schedule_text, duration_minutes,
          task_description⟩ with
    | .error exc =>
      ⟨.error (.schedulingErrorFrom
          ("LLM call failed. Is Ollama running with the " ++ sq ++ MODEL ++
            sq ++ " model pulled?") exc),
        [], []⟩
    | .ok result =>
      match validate_llm_result result with
      | .error e => ⟨.error e, [], []⟩
      | .ok _ =>
        let args : CreateArgs :=
          ⟨dgetD result "summary" (.str task_description),
            dget result "start", dget result "end",
            "Scheduled by GhostInTheMini\nReasoning: " ++
              pyStr (dgetD result "reasoning" (.str ""))⟩
        match env.create_event args with
        | .error exc =>
          if exc.isSched then ⟨.error exc, [args], []⟩
          else
            ⟨.error (.schedulingErrorFrom
                "Google Calendar rejected the event. Check the start/end times."
                exc),
              [args], []⟩
        | .ok created_event =>
          ⟨.ok result, [args],
            ["✅ Event created: " ++
                pyStr (dgetD result "summary" (.str task_description)),
              "   Start:  " ++ pyStr (dget result "start"),
              "   End:    " ++ pyStr (dget result "end"),
              "   Reason: " ++ pyStr (dgetD result "reasoning" (.str "N/A")),
              "   Link:   " ++ pyStr (dgetD created_event "htmlLink" (.str "N/A"))]⟩

/-! ### Slack front end (slack_bot.py lines 94-165)

The `authorize_user` middleware and the `handle_dm` / `handle_mention`
handlers, reduced to the question the claims ask: given an incoming event
and the configured allowlist, is `schedule_task` invoked, and with which
task text? -/

/-- An incoming Slack event: its type and the fields the bot reads.
`none` models an absent key (`event.get(k)` returning `None`). -/
structure SlackEvent where
  etype : String
  user : Option String
  text : Option String
  bot_id : Option String
  subtype : Option String
deriving DecidableEq, Repr

/-- Python truthiness of `event.get(k)` for a string-valued key: `None`
and the empty string are falsy. -/
def truthyOpt : Option String → Bool
  | none => false
  | some s => s != ""

/-- Python `str.strip()`: drop leading and trailing whitespace. -/
def pyStrip (s : String) : String :=
  ⟨((s.data.dropWhile Char.isWhitespace).reverse.dropWhile Char.isWhitespace).reverse⟩

/-- Split a character list at the first occurrence of `sep`, if any —
the list-level core of Python `s.split(sep, 1)`. -/
def splitOnce (sep : Char) : List Char → Option (List Char × List Char)
  | [] => Option.none
  | c :: rest =>
    if c == sep then some ([], rest)
    else
      match splitOnce sep rest with
      | some (pre, post) => some (c :: pre, post)
      | Option.none => Option.none

/-- The `authorize_user` middleware (slack_bot.py lines 94-106): calls
`next()` — letting the event through — when the event carries no (truthy)
user id, or when the user id is on the allowlist. -/
def authorizePasses (allowed : List String) (ev : SlackEvent) : Bool :=
  match ev.user with
  | none => true
  | some u => if u == "" then true else allowed.contains u

/-- `handle_dm` (slack_bot.py lines 110-124): the task text passed to
`schedule_task`, or `none` when the handler returns without scheduling. -/
def dmTaskText (ev : SlackEvent) : Option String :=
  let text := pyStrip (ev.text.getD "")
  if text == "" then none
  else if truthyOpt ev.bot_id || truthyOpt ev.subtype then none
  else some text

/-- `handle_mention` (slack_bot.py lines 139-165): strips everything up
to and including the first `>` (the bot-mention prefix) and schedules the
remainder when non-empty. -/
def mentionTaskText (ev : SlackEvent) : Option String :=
  let raw := pyStrip (ev.text.getD "")
  let text :=
    match splitOnce '>' raw.data with
    | some (_, post) => pyStrip ⟨post⟩
    | Option.none => raw
  if text == "" then none else some text

/-- Front-end dispatch: middleware, then the handler registered for the
event type.  Returns the task text `schedule_task` is invoked with, or
`none` when no scheduling happens. -/
def slackSchedules (allowed : List String) (ev : SlackEvent) : Option String :=
  if authorizePasses allowed ev then
    if ev.etype == "message" then dmTaskText ev
    else if ev.etype == "app_mention" then mentionTaskText ev
    else none
  else none

/-! ## Helper lemmas -/

/-- `hay` contains `needle` as a contiguous substring. -/
def containsStr (hay needle : String) : Prop := ∃ p q, hay = p ++ needle ++ q

/-- Validation can only succeed when no required key is missing. -/
lemma missingOf_eq_nil_of_ok (d : Pdict) (h : validate_llm_result d = .ok ()) :
    missingOf d = [] := by
  by_cases hm : missingOf d = []
  · exact hm
  · unfold validate_llm_result at h
    rw [if_pos hm] at h
    simp at h

/-- A successfully validated proposal has every required key. -/
lemma hasKey_of_validate_ok (d : Pdict) (h : validate_llm_result d = .ok ())
    (k : String) (hk : k ∈ REQUIRED_KEYS) : hasKey d k = true := by
  have hm := missingOf_eq_nil_of_ok d h
  have := List.filter_eq_nil_iff.mp hm k hk
  simpa using this

/-- The three-element required-key list is alphabetically sorted. -/
lemma required_sorted : List.Sorted (· < ·) REQUIRED_KEYS := by
  unfold REQUIRED_KEYS
  simp [List.sorted_cons]
  decide

/-! ## Claim theorems -/

/-- C5: for every proposal dict missing one or more of the required keys
`summary`, `start`, `end`, validation raises `SchedulingError` whose
message names the missing keys — `missingOf d`, which contains exactly
the missing required keys in alphabetically sorted order — and validation
performs no other check before failing this way (the result is exactly
this error, whatever the other values are). -/
theorem validate_missing_keys_sorted (d : Pdict)
    (h : ∃ k ∈ REQUIRED_KEYS, hasKey d k = false) :
    validate_llm_result d = .error (.schedulingError
      ("LLM response missing required key(s): " ++
        String.intercalate ", " (missingOf d) ++ ". Got: " ++ reprPdict d)) ∧
    (∀ k, k ∈ missingOf d ↔ (k ∈ REQUIRED_KEYS ∧ hasKey d k = false)) ∧
    List.Sorted (· < ·) (missingOf d) := by
  obtain ⟨k, hk, hkey⟩ := h
  have hne : missingOf d ≠ [] := by
    have hmem : k ∈ missingOf d := List.mem_filter.mpr ⟨hk, by simp [hkey]⟩
    exact List.ne_nil_of_mem hmem
  refine ⟨?_, ?_, ?_⟩
  · unfold validate_llm_result
    rw [if_pos hne]
  · intro k'
    simp [missingOf, List.mem_filter]
  · exact required_sorted.filter _

/-- Witness for C5: the proposal `{"summary": "No times"}` from the
scenario C of the spec fails validation naming `end, start`. -/
theorem validate_missing_keys_sorted_witness :
    validate_llm_result [("summary", PyVal.str "No times")] =
      .error (.schedulingError
        ("LLM response missing required key(s): end, start. Got: " ++
          reprPdict [("summary", PyVal.str "No times")])) := by
  have h := (validate_missing_keys_sorted [("summary", PyVal.str "No times")]
    ⟨"end", by decide, by rfl⟩).1
  exact h

/-- C6: for every proposal dict with all three required keys whose
`start` or `end` value does not parse as an ISO-8601 date-time,
validation raises `SchedulingError` naming the failing field and echoing
the offending raw value (Python `repr`); `start` is checked first. -/
theorem validate_invalid_datetime (d : Pdict)
    (h1 : hasKey d "summary" = true) (h2 : hasKey d "start" = true)
    (h3 : hasKey d "end" = true) :
    (∀ exc, fromisoformatV (dget d "start") = .error exc →
      validate_llm_result d = .error (.schedulingErrorFrom
        ("LLM returned an invalid datetime for " ++ sq ++ "start" ++ sq ++ ": " ++
          pyRepr (dget d "start")) exc)) ∧
    (∀ sdt exc, fromisoformatV (dget d "start") = .ok sdt →
      fromisoformatV (dget d "end") = .error exc →
      validate_llm_result d = .error (.schedulingErrorFrom
        ("LLM returned an invalid datetime for " ++ sq ++ "end" ++ sq ++ ": " ++
          pyRepr (dget d "end")) exc)) := by
  have hm : missingOf d = [] := by
    simp [missingOf, REQUIRED_KEYS, List.filter, h1, h2, h3]
  constructor
  · intro exc hexc
    unfold validate_llm_result
    rw [if_neg (by simp [hm]), hexc]
  · intro sdt exc hs he
    unfold validate_llm_result
    rw [if_neg (by simp [hm]), hs, he]

/-- Witness for C6: `start = "not-a-date"` fails validation echoing the
raw value. -/
theorem validate_invalid_datetime_witness :
    validate_llm_result
      [("summary", PyVal.str "Bad"), ("start", PyVal.str "not-a-date"),
        ("end", PyVal.str "2026-02-10T10:00:00")] =
    .error (.schedulingErrorFrom
      ("LLM returned an invalid datetime for " ++ sq ++ "start" ++ sq ++ ": " ++
        sq ++ "not-a-date" ++ sq)
      (.valueError ("Invalid isoformat string: " ++ sq ++ "not-a-date" ++ sq))) := by
  have h := (validate_invalid_datetime
    [("summary", PyVal.str "Bad"), ("start", PyVal.str "not-a-date"),
      ("end", PyVal.str "2026-02-10T10:00:00")] rfl rfl rfl).1
    (.valueError ("Invalid isoformat string: " ++ sq ++ "not-a-date" ++ sq)) (by decide)
  exact h

/-- C7: for every proposal dict with all three required keys whose `start`
and `end` are strings that both parse, and whose comparison evaluates to
`end ≤ start`, validation raises `SchedulingError` whose message contains
both original string values verbatim. -/
theorem validate_end_not_after_start (d : Pdict) (sstr estr : String)
    (sdt edt : PyDatetime)
    (h1 : hasKey d "summary" = true) (h2 : hasKey d "start" = true)
    (h3 : hasKey d "end" = true)
    (hs : dget d "start" = .str sstr) (he : dget d "end" = .str estr)
    (hps : fromisoformatV (.str sstr) = .ok sdt)
    (hpe : fromisoformatV (.str estr) = .ok edt)
    (hle : pyLeDatetime edt sdt = .ok true) :
    validate_llm_result d = .error (.schedulingError (endNotAfterMsg sstr estr)) ∧
    containsStr (endNotAfterMsg sstr estr) estr ∧
    containsStr (endNotAfterMsg sstr estr) sstr := by
  have hm : missingOf d = [] := by
    simp [missingOf, REQUIRED_KEYS, List.filter, h1, h2, h3]
  refine ⟨?_, ?_, ?_⟩
  · unfold validate_llm_result
    rw [if_neg (by simp [hm])]
    simp only [hs, he, hps, hpe, hle]
    rfl
  · exact ⟨"LLM returned an end time (",
      ") that is not after the start time (" ++ sstr ++ ")",
      by simp [endNotAfterMsg, String.append_assoc]⟩
  · exact ⟨"LLM returned an end time (" ++ estr ++ ") that is not after the start time (",
      ")", by simp [endNotAfterMsg, String.append_assoc]⟩

/-- Witness for C7: reversed start/end times fail validation with both
values in the message. -/
theorem validate_end_not_after_start_witness :
    validate_llm_result
      [("summary", PyVal.str "Backwards"), ("start", PyVal.str "2026-02-10T11:00:00"),
        ("end", PyVal.str "2026-02-10T09:00:00")] =
      .error (.schedulingError
        (endNotAfterMsg "2026-02-10T11:00:00" "2026-02-10T09:00:00")) ∧
    containsStr (endNotAfterMsg "2026-02-10T11:00:00" "2026-02-10T09:00:00")
      "2026-02-10T09:00:00" ∧
    containsStr (endNotAfterMsg "2026-02-10T11:00:00" "2026-02-10T09:00:00")
      "2026-02-10T11:00:00" := by
  have h := validate_end_not_after_start
    [("summary", PyVal.str "Backwards"), ("start", PyVal.str "2026-02-10T11:00:00"),
      ("end", PyVal.str "2026-02-10T09:00:00")]
    "2026-02-10T11:00:00" "2026-02-10T09:00:00"
    ⟨daysFromCivil 2026 2 10, 39600, Option.none⟩
    ⟨daysFromCivil 2026 2 10, 32400, Option.none⟩
    rfl rfl rfl rfl rfl (by decide) (by decide) (by decide)
  exact h

/-- C8: a proposal dict with all three required keys, both date-times
parseable, and the comparison evaluating to `end > start` passes
validation.  The embedded validator is a pure function of the dict
(`Pdict → Except PyExc Unit`), so success has no effect on the proposal
or any other state. -/
theorem validate_ok_of_wellformed (d : Pdict) (sdt edt : PyDatetime)
    (h1 : hasKey d "summary" = true) (h2 : hasKey d "start" = true)
    (h3 : hasKey d "end" = true)
    (hps : fromisoformatV (dget d "start") = .ok sdt)
    (hpe : fromisoformatV (dget d "end") = .ok edt)
    (hgt : pyLeDatetime edt sdt = .ok false) :
    validate_llm_result d = .ok () := by
  have hm : missingOf d = [] := by
    simp [missingOf, REQUIRED_KEYS, List.filter, h1, h2, h3]
  unfold validate_llm_result
  rw [if_neg (by simp [hm])]
  simp only [hps, hpe, hgt]

/-- Witness for C8: the well-formed proposal from the test suite of the repository
passes validation. -/
theorem validate_ok_of_wellformed_witness :
    validate_llm_result
      [("summary", PyVal.str "Focus time"), ("start", PyVal.str "2026-02-10T09:00:00"),
        ("end", PyVal.str "2026-02-10T10:00:00"),
        ("reasoning", PyVal.str "Morning is free.")] = .ok () := by
  have h := validate_ok_of_wellformed
    [("summary", PyVal.str "Focus time"), ("start", PyVal.str "2026-02-10T09:00:00"),
      ("end", PyVal.str "2026-02-10T10:00:00"),
      ("reasoning", PyVal.str "Morning is free.")]
    ⟨daysFromCivil 2026 2 10, 32400, Option.none⟩
    ⟨daysFromCivil 2026 2 10, 36000, Option.none⟩
    rfl rfl rfl (by decide) (by decide) (by decide)
  exact h

/-- C10 (code bug): a proposal whose `start` is offset-naive and whose
`end` is offset-aware passes both individual `fromisoformat` checks, but
the `end_dt <= start_dt` comparison on line 220 — outside any `try` —
raises `TypeError`, which escapes `validate_llm_result` untyped instead
of the documented `SchedulingError`. -/
theorem validate_mixed_offset_raises_typeerror :
    validate_llm_result
      [("summary", PyVal.str "Focus time"), ("start", PyVal.str "2026-02-10T09:00:00"),
        ("end", PyVal.str "2026-02-10T10:00:00+00:00")] =
    .error (.typeError
      ("can" ++ sq ++ "t compare offset-naive and offset-aware datetimes")) := by
  decide

/-- C2: `create_event` is reached only after `validate_llm_result`
returned without raising on the parsed proposal, and whenever validation
fails its error propagates to the caller unchanged with no event-creation
call made (earlier-stage failures likewise make no creation call, by the
first conjunct). -/
theorem schedule_task_validates_before_create (env : Env) (task : String)
    (dm da : Nat) :
    (∀ a ∈ (schedule_task env task dm da).createCalls,
      ∃ sched p, env.get_schedule = .ok sched ∧
        env.chain_invoke ⟨env.nowStr, da, scheduleText sched, dm, task⟩ = .ok p ∧
        validate_llm_result p = .ok ()) ∧
    (∀ sched p e, env.get_schedule = .ok sched →
      env.chain_invoke ⟨env.nowStr, da, scheduleText sched, dm, task⟩ = .ok p →
      validate_llm_result p = .error e →
      (schedule_task env task dm da).outcome = .error e ∧
      (schedule_task env task dm da).createCalls = []) := by
  constructor
  · intro a ha
    simp only [schedule_task] at ha
    split at ha
    · simp at ha
    · rename_i sched hg
      split at ha
      · simp at ha
      · rename_i p hi
        split at ha
        · simp at ha
        · rename_i u hv
          cases u
          exact ⟨sched, p, hg, hi, hv⟩
  · intro sched p e hg hi hv
    refine ⟨?_, ?_⟩ <;>
      · unfold schedule_task
        simp only [hg, hi, hv]

/-- The invalid proposal used to exercise the validation short-circuit:
`end` is before `start`. -/
def proposalBad : Pdict :=
  [("summary", PyVal.str "Backwards"), ("start", PyVal.str "2026-02-10T11:00:00"),
    ("end", PyVal.str "2026-02-10T09:00:00")]

/-- Environment whose model call returns `proposalBad`. -/
def envBad : Env :=
  ⟨.ok [], "2026-02-09 08:00:00", fun _ => .ok proposalBad,
    fun _ => .ok [("htmlLink", PyVal.str "https://calendar.google.com/event/zzz")]⟩

/-- Witness for C2: with a time-reversed proposal the pipeline raises the
validator error unchanged and makes no `create_event` call. -/
theorem schedule_task_validates_before_create_witness :
    (schedule_task envBad "some task" 60 7).outcome =
      .error (.schedulingError
        (endNotAfterMsg "2026-02-10T11:00:00" "2026-02-10T09:00:00")) ∧
    (schedule_task envBad "some task" 60 7).createCalls = [] :=
  (schedule_task_validates_before_create envBad "some task" 60 7).2 [] proposalBad
    (.schedulingError (endNotAfterMsg "2026-02-10T11:00:00" "2026-02-10T09:00:00"))
    rfl rfl (by decide)

/-- C4: each stage with an external call catches only exceptions from
that call and re-signals them as `SchedulingError` with the original
exception preserved as `__cause__`; the event-creation stage re-raises an
exception that is already a `SchedulingError` unchanged and wraps
everything else. -/
theorem schedule_task_error_wrapping (env : Env) (task : String) (dm da : Nat) :
    (∀ exc, env.get_schedule = .error exc →
      (schedule_task env task dm da).outcome = .error (.schedulingErrorFrom
        "Failed to fetch your calendar. Is your Google token valid?" exc)) ∧
    (∀ sched exc, env.get_schedule = .ok sched →
      env.chain_invoke ⟨env.nowStr, da, scheduleText sched, dm, task⟩ = .error exc →
      (schedule_task env task dm da).outcome = .error (.schedulingErrorFrom
        ("LLM call failed. Is Ollama running with the " ++ sq ++ MODEL ++ sq ++
          " model pulled?") exc)) ∧
    (∀ sched p exc, env.get_schedule = .ok sched →
      env.chain_invoke ⟨env.nowStr, da, scheduleText sched, dm, task⟩ = .ok p →
      validate_llm_result p = .ok () →
      env.create_event ⟨dgetD p "summary" (.str task), dget p "start", dget p "end",
        "Scheduled by GhostInTheMini\nReasoning: " ++
          pyStr (dgetD p "reasoning" (.str ""))⟩ = .error exc →
      (schedule_task env task dm da).outcome =
        .error (if exc.isSched then exc
          else .schedulingErrorFrom
            "Google Calendar rejected the event. Check the start/end times." exc)) := by
  refine ⟨?_, ?_, ?_⟩
  · intro exc hg
    unfold schedule_task
    simp only [hg]
  · intro sched exc hg hi
    unfold schedule_task
    simp only [hg, hi]
  · intro sched p exc hg hi hv hc
    unfold schedule_task
    simp only [hg, hi, hv, hc]
    cases hsc : exc.isSched <;> simp [hsc]

/-- A well-formed proposal for the success-path environments. -/
def proposalOk : Pdict :=
  [("summary", PyVal.str "Write docs"), ("start", PyVal.str "2026-02-10T14:00:00"),
    ("end", PyVal.str "2026-02-10T15:00:00"),
    ("reasoning", PyVal.str "afternoon free")]

/-- Environment whose calendar fetch fails. -/
def envFetchFail : Env :=
  ⟨.error (.connectionError "boom"), "2026-02-09 08:00:00",
    fun _ => .ok proposalOk, fun _ => .ok []⟩

/-- Environment whose model call fails. -/
def envLlmFail : Env :=
  ⟨.ok [], "2026-02-09 08:00:00",
    fun _ => .error (.connectionError "Ollama is not running"), fun _ => .ok []⟩

/-- Environment whose event creation fails with a non-pipeline error. -/
def envCreateFail : Env :=
  ⟨.ok [], "2026-02-09 08:00:00", fun _ => .ok proposalOk,
    fun _ => .error (.otherExc "HttpError 400")⟩

/-- Environment whose event creation fails with a typed pipeline error. -/
def envCreateFailTyped : Env :=
  ⟨.ok [], "2026-02-09 08:00:00", fun _ => .ok proposalOk,
    fun _ => .error (.schedulingError "typed failure")⟩

/-- Witness for C4: each wrapping clause at a concrete environment, plus
the unchanged pass-through of an already-typed failure. -/
theorem schedule_task_error_wrapping_witness :
    (schedule_task envFetchFail "t" 60 7).outcome = .error (.schedulingErrorFrom
      "Failed to fetch your calendar. Is your Google token valid?"
      (.connectionError "boom")) ∧
    (schedule_task envLlmFail "t" 60 7).outcome = .error (.schedulingErrorFrom
      ("LLM call failed. Is Ollama running with the " ++ sq ++ MODEL ++ sq ++
        " model pulled?") (.connectionError "Ollama is not running")) ∧
    (schedule_task envCreateFail "t" 60 7).outcome = .error (.schedulingErrorFrom
      "Google Calendar rejected the event. Check the start/end times."
      (.otherExc "HttpError 400")) ∧
    (schedule_task envCreateFailTyped "t" 60 7).outcome =
      .error (.schedulingError "typed failure") := by
  refine ⟨(schedule_task_error_wrapping envFetchFail "t" 60 7).1 _ rfl,
    (schedule_task_error_wrapping envLlmFail "t" 60 7).2.1 [] _ rfl rfl, ?_, ?_⟩
  · have h := (schedule_task_error_wrapping envCreateFail "t" 60 7).2.2 [] proposalOk
      (.otherExc "HttpError 400") rfl rfl (by decide) rfl
    simpa [PyExc.isSched] using h
  · have h := (schedule_task_error_wrapping envCreateFailTyped "t" 60 7).2.2 [] proposalOk
      (.schedulingError "typed failure") rfl rfl (by decide) rfl
    simpa [PyExc.isSched] using h

/-- Environment for the fully successful run: empty calendar, well-formed
proposal, created event carrying a link. -/
def envSuccess : Env :=
  ⟨.ok [], "2026-02-09 08:00:00", fun _ => .ok proposalOk,
    fun _ => .ok [("htmlLink", PyVal.str "https://calendar.google.com/event/xyz")]⟩

/-- C1 counterexample: on a successful run whose created event carries a
reference link, the returned value is the proposal dict alone — the link
does not appear among its values, so the claim that the return contains
the link fails. -/
theorem schedule_task_return_lacks_link :
    (schedule_task envSuccess "write docs" 60 7).outcome = .ok proposalOk ∧
    PyVal.str "https://calendar.google.com/event/xyz" ∉ proposalOk.map Prod.snd := by
  decide

/-- C1 amended: on a fully successful run `schedule_task` returns exactly
the validated proposal (which contains summary, start and end); the
reference link is not part of the returned value but is printed, with
"N/A" substituted when the created event carries no `htmlLink`. -/
theorem schedule_task_returns_proposal (env : Env) (task : String) (dm da : Nat)
    (sched : List CalItem) (p c : Pdict)
    (hg : env.get_schedule = .ok sched)
    (hi : env.chain_invoke ⟨env.nowStr, da, scheduleText sched, dm, task⟩ = .ok p)
    (hv : validate_llm_result p = .ok ())
    (hc : env.create_event ⟨dgetD p "summary" (.str task), dget p "start", dget p "end",
      "Scheduled by GhostInTheMini\nReasoning: " ++
        pyStr (dgetD p "reasoning" (.str ""))⟩ = .ok c) :
    (schedule_task env task dm da).outcome = .ok p ∧
    hasKey p "summary" = true ∧ hasKey p "start" = true ∧ hasKey p "end" = true ∧
    ("   Link:   " ++ pyStr (dgetD c "htmlLink" (.str "N/A"))) ∈
      (schedule_task env task dm da).printed := by
  have hsum := hasKey_of_validate_ok p hv "summary" (by decide)
  have hst := hasKey_of_validate_ok p hv "start" (by decide)
  have hen := hasKey_of_validate_ok p hv "end" (by decide)
  refine ⟨?_, hsum, hst, hen, ?_⟩
  · unfold schedule_task
    simp only [hg, hi, hv, hc]
  · unfold schedule_task
    simp only [hg, hi, hv, hc]
    simp

/-- Witness for C1 (amended): the successful run returns the proposal and
prints the link line. -/
theorem schedule_task_returns_proposal_witness :
    (schedule_task envSuccess "write docs" 60 7).outcome = .ok proposalOk ∧
    hasKey proposalOk "summary" = true ∧ hasKey proposalOk "start" = true ∧
    hasKey proposalOk "end" = true ∧
    "   Link:   https://calendar.google.com/event/xyz" ∈
      (schedule_task envSuccess "write docs" 60 7).printed := by
  have h := schedule_task_returns_proposal envSuccess "write docs" 60 7 [] proposalOk
    [("htmlLink", PyVal.str "https://calendar.google.com/event/xyz")]
    rfl rfl (by decide) rfl
  exact h

/-- A direct-message event with no `user` field at all. -/
def evNoUser : SlackEvent :=
  ⟨"message", Option.none, some "schedule standup", Option.none, Option.none⟩

/-- C3 counterexample: an incoming message event with no user identity
passes the `authorize_user` middleware (the `if not user_id` branch calls
`next()`) and triggers scheduling, yet its user is not a member of any
allowlist. -/
theorem slack_userless_event_schedules :
    slackSchedules ["U01ABCDEF"] evNoUser = some "schedule standup" ∧
    evNoUser.user = Option.none ∧
    ¬ ∃ u, evNoUser.user = some u ∧ u ∈ ["U01ABCDEF"] := by
  refine ⟨by decide, rfl, ?_⟩
  rintro ⟨u, hu, _⟩
  simp [evNoUser] at hu

/-- C3 amended: whenever an incoming event triggers scheduling, its user
field is either absent, the empty string (both treated by the middleware
as non-event payloads and let through), or a member of the allowlist; an
event carrying a non-empty user identity outside the allowlist never
triggers scheduling. -/
theorem slack_schedules_user_allowlisted (allowed : List String)
    (ev : SlackEvent) (t : String)
    (h : slackSchedules allowed ev = some t) :
    ev.user = Option.none ∨ ev.user = some "" ∨
      ∃ u, ev.user = some u ∧ u ∈ allowed := by
  unfold slackSchedules at h
  cases hb : authorizePasses allowed ev with
  | false => rw [hb] at h; simp at h
  | true =>
    unfold authorizePasses at hb
    cases hu : ev.user with
    | none => exact .inl rfl
    | some u =>
      rw [hu] at hb
      by_cases he : u = ""
      · exact .inr (.inl (by rw [he]))
      · exact .inr (.inr ⟨u, rfl, by simpa [he] using hb⟩)

/-- An allowlisted direct-message event. -/
def evAllowed : SlackEvent :=
  ⟨"message", some "U01ABCDEF", some "schedule standup", Option.none, Option.none⟩

/-- Witness for C3 (amended): a DM from an allowlisted user triggers scheduling
and satisfies the allowlist disjunct. -/
theorem slack_schedules_user_allowlisted_witness :
    evAllowed.user = Option.none ∨ evAllowed.user = some "" ∨
      ∃ u, evAllowed.user = some u ∧ u ∈ ["U01ABCDEF"] :=
  slack_schedules_user_allowlisted ["U01ABCDEF"] evAllowed "schedule standup"
    (by decide)

/-- A sample calendar event for the prompt-rendering claims. -/
def evStandup : CalItem :=
  ⟨"Standup", "2026-02-09T09:00:00", "2026-02-09T09:30:00", ""⟩

/-- C9 counterexample: each rendered line carries a `"  - "` prefix, so a
line is not exactly `"<title>: <start> → <end>"`. -/
theorem scheduleText_line_not_bare_format :
    scheduleText [evStandup] ≠
      "Standup: 2026-02-09T09:00:00 → 2026-02-09T09:30:00" ∧
    scheduleText [evStandup] =
      "  - Standup: 2026-02-09T09:00:00 → 2026-02-09T09:30:00" := by
  decide

/-- C9 amended: for a non-empty listing the schedule text is the newline
join of one line per event, in the order received, each formatted
`"  - <title>: <start> → <end>"`; for an empty listing it is the single
literal placeholder line, not an empty string. -/
theorem scheduleText_shape (evs : List CalItem) :
    (evs ≠ [] → scheduleText evs = String.intercalate "\n"
      (evs.map (fun e => "  - " ++ e.summary ++ ": " ++ e.start ++ " → " ++ e.«end»))) ∧
    scheduleText [] = "  (No events scheduled)" := by
  constructor
  · intro h
    cases evs with
    | nil => exact absurd rfl h
    | cons a t => rfl
  · rfl

/-- Witness for C9 (amended): two events render as two prefixed lines in
order; the empty listing renders as the placeholder. -/
theorem scheduleText_shape_witness :
    scheduleText [evStandup, ⟨"Lunch", "2026-02-09T12:00:00", "2026-02-09T13:00:00", ""⟩] =
      "  - Standup: 2026-02-09T09:00:00 → 2026-02-09T09:30:00\n  - Lunch: 2026-02-09T12:00:00 → 2026-02-09T13:00:00" ∧
    scheduleText [] = "  (No events scheduled)" := by
  refine ⟨?_, (scheduleText_shape []).2⟩
  have h := (scheduleText_shape
    [evStandup, ⟨"Lunch", "2026-02-09T12:00:00", "2026-02-09T13:00:00", ""⟩]).1
    (by simp)
  exact h

end GhostInTheMini
